import Mathlib

/-!
Verification development for the resilience core of the iggy_sample HTTP
gateway: circuit breaker, operation envelope, reconnector, CIDR / identity
extraction, and keyed rate limiting.  Each definition is a shallow embedding
of the corresponding Rust item; time is modelled as a natural number of
nanoseconds, machine integers as naturals (counters stay far below 2^32 in
every statement proved here, and the one place the bound matters carries an
explicit hypothesis).
-/

/-- Error type of the gateway (src/error.rs, the variants used by the
resilience core). -/
inductive AppError where
  | ConnectionFailed (msg : String)
  | Disconnected (msg : String)
  | ConnectionReset (msg : String)
  | StreamError (msg : String)
  | TopicError (msg : String)
  | SendError (msg : String)
  | PollError (msg : String)
  | Internal (msg : String)
  | ConfigError (msg : String)
  | BadRequest (msg : String)
  | NotFound (msg : String)
  | SerializationError (msg : String)
  | OperationTimeout (msg : String)
  | CircuitOpen (msg : String)
deriving DecidableEq

/-- IggyClientWrapper::is_connection_error (src/iggy_client/mod.rs). -/
def is_connection_error : AppError → Bool
  | .ConnectionFailed _ => true
  | .Disconnected _ => true
  | .ConnectionReset _ => true
  | _ => false

/-- CircuitState (src/iggy_client/circuit_breaker.rs). -/
inductive CircuitState where
  | Closed
  | Open
  | HalfOpen
deriving DecidableEq

/-- Display impl for CircuitState. -/
def CircuitState.display : CircuitState → String
  | .Closed => "closed"
  | .Open => "open"
  | .HalfOpen => "half-open"

/-- CircuitBreakerConfig; open_duration in nanoseconds. -/
structure CircuitBreakerConfig where
  failure_threshold : Nat
  success_threshold : Nat
  open_duration : Nat
deriving DecidableEq

/-- CircuitBreakerState (the RwLock-protected interior). -/
structure CircuitBreakerState where
  state : CircuitState
  opened_at : Option Nat
  consecutive_failures : Nat
  consecutive_successes : Nat
deriving DecidableEq

/-- CircuitBreaker: config, interior state, and the two metric counters. -/
structure CircuitBreaker where
  config : CircuitBreakerConfig
  st : CircuitBreakerState
  times_opened : Nat
  requests_rejected : Nat
deriving DecidableEq

/-- CircuitBreaker::record_success.  In HalfOpen, reaching the success
threshold sets Closed, clears opened_at and the failure counter; the
success counter keeps the value it just reached. -/
def CircuitBreaker.record_success (cb : CircuitBreaker) : CircuitBreaker :=
  match cb.st.state with
  | .Closed => { cb with st := { cb.st with consecutive_failures := 0 } }
  | .HalfOpen =>
      let s := cb.st.consecutive_successes + 1
      if cb.config.success_threshold ≤ s then
        { cb with st := { state := .Closed
                          opened_at := none
                          consecutive_failures := 0
                          consecutive_successes := s } }
      else
        { cb with st := { cb.st with consecutive_successes := s } }
  | .Open => cb

/-- CircuitBreaker::record_failure, with the current instant `now`. -/
def CircuitBreaker.record_failure (cb : CircuitBreaker) (now : Nat) : CircuitBreaker :=
  match cb.st.state with
  | .Closed =>
      let f := cb.st.consecutive_failures + 1
      if cb.config.failure_threshold ≤ f then
        { cb with
          st := { cb.st with
                    state := .Open
                    opened_at := some now
                    consecutive_failures := f },
          times_opened := cb.times_opened + 1 }
      else
        { cb with st := { cb.st with consecutive_failures := f } }
  | .HalfOpen =>
      { cb with
        st := { cb.st with
                  state := .Open
                  opened_at := some now
                  consecutive_successes := 0 },
        times_opened := cb.times_opened + 1 }
  | .Open => { cb with st := { cb.st with opened_at := some now } }

/-- CircuitBreaker::allow_request at instant `now`: the read-lock fast path
followed by the write-lock re-check, collapsed sequentially.  Returns the
admission decision and the updated breaker. -/
def CircuitBreaker.allow_request (cb : CircuitBreaker) (now : Nat) :
    Bool × CircuitBreaker :=
  match cb.st.state with
  | .Closed => (true, cb)
  | .HalfOpen => (true, cb)
  | .Open =>
      match cb.st.opened_at with
      | some t =>
          if now - t < cb.config.open_duration then
            (false, { cb with requests_rejected := cb.requests_rejected + 1 })
          else
            (true, { cb with st := { cb.st with
                                       state := .HalfOpen
                                       consecutive_successes := 0 } })
      | none => (false, { cb with requests_rejected := cb.requests_rejected + 1 })

/-- Outcome of one timed invocation of the user closure inside the envelope:
the closure returned Ok, returned Err, or the tokio timeout elapsed. -/
inductive Outcome (T : Type) where
  | ok (v : T)
  | err (e : AppError)
  | timeout

/-- Result of a run of the operation envelope, together with the trace data
the claims are about: how often the closure ran, how many breaker
failures/successes were recorded, and how often reconnect was invoked. -/
structure EnvResult (T : Type) where
  result : Except AppError T
  breaker : CircuitBreaker
  invocations : Nat
  failures_recorded : Nat
  successes_recorded : Nat
  reconnect_calls : Nat

/-- IggyClientWrapper::with_reconnect (src/iggy_client/mod.rs lines 337-439).
`conn` is the ConnectionState::is_connected reading at the first-attempt
timeout disambiguation; `rr` the outcome of self.reconnect() when invoked;
`td` the Debug rendering of the operation timeout used in messages; `op i`
the outcome of the (i+1)-th invocation of the user closure. -/
def with_reconnect {T : Type} (cb0 : CircuitBreaker) (now : Nat) (conn : Bool)
    (rr : Except AppError Unit) (td : String) (op : Nat → Outcome T) :
    EnvResult T :=
  let gate := cb0.allow_request now
  if gate.1 then
    let cb := gate.2
    match op 0 with
    | .ok v =>
        { result := .ok v, breaker := cb.record_success, invocations := 1,
          failures_recorded := 0, successes_recorded := 1, reconnect_calls := 0 }
    | .err e =>
        if is_connection_error e then
          let cb := cb.record_failure now
          match rr with
          | .error re =>
              { result := .error re, breaker := cb, invocations := 1,
                failures_recorded := 1, successes_recorded := 0,
                reconnect_calls := 1 }
          | .ok _ =>
              match op 1 with
              | .ok v =>
                  { result := .ok v, breaker := cb.record_success,
                    invocations := 2, failures_recorded := 1,
                    successes_recorded := 1, reconnect_calls := 1 }
              | .err e2 =>
                  if is_connection_error e2 then
                    { result := .error e2, breaker := cb.record_failure now,
                      invocations := 2, failures_recorded := 2,
                      successes_recorded := 0, reconnect_calls := 1 }
                  else
                    { result := .error e2, breaker := cb, invocations := 2,
                      failures_recorded := 1, successes_recorded := 0,
                      reconnect_calls := 1 }
              | .timeout =>
                  { result := .error (.OperationTimeout
                      ("Operation timed out after " ++ td ++ " on retry")),
                    breaker := cb.record_failure now, invocations := 2,
                    failures_recorded := 2, successes_recorded := 0,
                    reconnect_calls := 1 }
        else
          { result := .error e, breaker := cb, invocations := 1,
            failures_recorded := 0, successes_recorded := 0,
            reconnect_calls := 0 }
    | .timeout =>
        if conn then
          { result := .error (.OperationTimeout
              ("Operation timed out after " ++ td)),
            breaker := cb, invocations := 1, failures_recorded := 0,
            successes_recorded := 0, reconnect_calls := 0 }
        else
          let cb := cb.record_failure now
          match rr with
          | .error re =>
              { result := .error re, breaker := cb, invocations := 1,
                failures_recorded := 1, successes_recorded := 0,
                reconnect_calls := 1 }
          | .ok _ =>
              match op 1 with
              | .ok v =>
                  { result := .ok v, breaker := cb.record_success,
                    invocations := 2, failures_recorded := 1,
                    successes_recorded := 1, reconnect_calls := 1 }
              | .err e2 =>
                  if is_connection_error e2 then
                    { result := .error e2, breaker := cb.record_failure now,
                      invocations := 2, failures_recorded := 2,
                      successes_recorded := 0, reconnect_calls := 1 }
                  else
                    { result := .error e2, breaker := cb, invocations := 2,
                      failures_recorded := 1, successes_recorded := 0,
                      reconnect_calls := 1 }
              | .timeout =>
                  { result := .error (.OperationTimeout
                      ("Operation timed out after " ++ td ++ " on retry")),
                    breaker := cb.record_failure now, invocations := 2,
                    failures_recorded := 2, successes_recorded := 0,
                    reconnect_calls := 1 }
  else
    { result := .error (.CircuitOpen
        ("Circuit breaker is " ++ gate.2.st.state.display
          ++ " - service temporarily unavailable")),
      breaker := gate.2, invocations := 0, failures_recorded := 0,
      successes_recorded := 0, reconnect_calls := 0 }

/-- IggyClientWrapper::send_events_batch (src/iggy_client/mod.rs lines
629-671): an empty events slice returns Ok(()) before the operation
envelope is entered; otherwise the envelope runs the broker send, whose
per-invocation outcome is `sendOp`. -/
def send_events_batch {E : Type} (cb : CircuitBreaker) (now : Nat)
    (conn : Bool) (rr : Except AppError Unit) (td : String)
    (events : List E) (sendOp : Nat → Outcome Unit) : EnvResult Unit :=
  if events.isEmpty then
    { result := .ok (), breaker := cb, invocations := 0,
      failures_recorded := 0, successes_recorded := 0, reconnect_calls := 0 }
  else
    with_reconnect cb now conn rr td sendOp

/-- ConnectionState (src/iggy_client/connection.rs): the three scalar
fields; the Notify rendezvous carries no data and is elided from the
sequential model. -/
structure ConnectionState where
  connected : Bool
  reconnect_attempts : Nat
  reconnecting : Bool
deriving DecidableEq

/-- ConnectionState::set_connected: stores the flag and, when it is true,
resets the attempts counter. -/
def ConnectionState.set_connected (st : ConnectionState) (c : Bool) :
    ConnectionState :=
  { st with
    connected := c
    reconnect_attempts := if c then 0 else st.reconnect_attempts }

/-- One step structure of IggyClientWrapper::reconnect's backoff loop
(src/iggy_client/mod.rs lines 254-309), driven to completion with `fuel`
as the structural bound (`none` = fuel exhausted, which never happens in
the statements below).  `attempt_ok n` tells whether the n-th fresh
connection attempt succeeds; the backoff sleep affects only timing and is
elided.  The returned Nat counts actual connection attempts performed. -/
def reconnect_loop (max_attempts : Nat) (attempt_ok : Nat → Bool) :
    Nat → ConnectionState → Nat →
    Option (Except AppError Unit × ConnectionState × Nat)
  | 0, _, _ => none
  | fuel + 1, st, tried =>
    let attempt := st.reconnect_attempts + 1
    let st2 : ConnectionState := { st with reconnect_attempts := attempt }
    if 0 < max_attempts ∧ max_attempts < attempt then
      some (.error (.ConnectionFailed
              ("Failed to reconnect after " ++ toString max_attempts
                ++ " attempts")), st2, tried)
    else
      if attempt_ok attempt then
        some (.ok (), st2.set_connected true, tried + 1)
      else
        reconnect_loop max_attempts attempt_ok fuel st2 (tried + 1)

/-- IggyClientWrapper::reconnect as the driving task (the caller that wins
start_reconnecting): takes the flag, marks the state disconnected, runs the
backoff loop, and clears the flag on exit via the scope guard. -/
def reconnect_drive (max_attempts : Nat) (attempt_ok : Nat → Bool)
    (fuel : Nat) (st : ConnectionState) :
    Option (Except AppError Unit × ConnectionState × Nat) :=
  let st1 : ConnectionState := { st with reconnecting := true }
  let st2 := st1.set_connected false
  match reconnect_loop max_attempts attempt_ok fuel st2 0 with
  | some (r, st3, tried) => some (r, { st3 with reconnecting := false }, tried)
  | none => none

/-- C1 counterexample: with success_threshold = 1 and the breaker in
HalfOpen with both counters zero, record_success does close the circuit but
leaves consecutive_successes at 1, not 0, refuting the claim that both
counters are zero after the transition. -/
theorem c1_record_success_counterexample :
    ((CircuitBreaker.mk ⟨3, 1, 1000⟩ ⟨.HalfOpen, some 0, 0, 0⟩ 1 0).record_success).st.state
        = .Closed
    ∧ ((CircuitBreaker.mk ⟨3, 1, 1000⟩ ⟨.HalfOpen, some 0, 0, 0⟩ 1 0).record_success).st.consecutive_successes
        ≠ 0 := by
  constructor
  · rfl
  · decide

/-- C1 (amended): in HalfOpen, the success_threshold-th consecutive success
recorded via record_success transitions the phase to Closed with
consecutive_failures = 0 and opened_at cleared, while consecutive_successes
keeps the threshold value it just reached (it is re-zeroed only on the next
Open-to-HalfOpen admission); with fewer than success_threshold consecutive
successes the phase stays HalfOpen and only the success counter advances. -/
theorem c1_record_success_half_open (cb : CircuitBreaker)
    (h : cb.st.state = .HalfOpen) :
    (cb.config.success_threshold ≤ cb.st.consecutive_successes + 1 →
        (cb.record_success).st.state = .Closed
      ∧ (cb.record_success).st.consecutive_failures = 0
      ∧ (cb.record_success).st.opened_at = none
      ∧ (cb.record_success).st.consecutive_successes
          = cb.st.consecutive_successes + 1)
    ∧ (cb.st.consecutive_successes + 1 < cb.config.success_threshold →
        (cb.record_success).st.state = .HalfOpen
      ∧ (cb.record_success).st.consecutive_failures
          = cb.st.consecutive_failures
      ∧ (cb.record_success).st.consecutive_successes
          = cb.st.consecutive_successes + 1) := by
  unfold CircuitBreaker.record_success
  rw [h]
  constructor
  · intro hle
    simp [if_pos hle]
  · intro hlt
    simp only [if_neg (by omega : ¬ cb.config.success_threshold ≤ cb.st.consecutive_successes + 1)]
    simp [h]

/-- Witness for c1_record_success_half_open at a concrete breaker. -/
theorem c1_record_success_half_open_witness :
    ((CircuitBreaker.mk ⟨5, 2, 1000⟩ ⟨.HalfOpen, some 7, 0, 1⟩ 1 0).record_success).st.state
        = .Closed
    ∧ ((CircuitBreaker.mk ⟨5, 2, 1000⟩ ⟨.HalfOpen, some 7, 0, 0⟩ 1 0).record_success).st.state
        = .HalfOpen := by
  have h1 := c1_record_success_half_open
      (CircuitBreaker.mk ⟨5, 2, 1000⟩ ⟨.HalfOpen, some 7, 0, 1⟩ 1 0) rfl
  have h2 := c1_record_success_half_open
      (CircuitBreaker.mk ⟨5, 2, 1000⟩ ⟨.HalfOpen, some 7, 0, 0⟩ 1 0) rfl
  exact ⟨(h1.1 (by decide)).1, (h2.2 (by decide)).1⟩

/-- C9: send_events_batch with an empty events slice is a no-op success
before the operation envelope: it succeeds for every breaker state (Open
included), leaves the breaker untouched, records no success or failure,
never invokes reconnect, and never invokes the broker send closure. -/
theorem c9_empty_batch_no_op {E : Type} (cb : CircuitBreaker) (now : Nat)
    (conn : Bool) (rr : Except AppError Unit) (td : String)
    (sendOp : Nat → Outcome Unit) :
    send_events_batch cb now conn rr td ([] : List E) sendOp
      = { result := .ok (), breaker := cb, invocations := 0,
          failures_recorded := 0, successes_recorded := 0,
          reconnect_calls := 0 } := rfl

/-- C2: the envelope invokes the user closure at most twice; a retry that
itself returns a connection-class error records one more breaker failure
and returns that error with no further retry; a non-connection error on
the first invocation is returned unchanged, with no breaker failure
recorded and no reconnect. -/
theorem c2_envelope_at_most_one_retry {T : Type} (cb0 : CircuitBreaker)
    (now : Nat) (conn : Bool) (rr : Except AppError Unit) (td : String)
    (op : Nat → Outcome T) :
    (with_reconnect cb0 now conn rr td op).invocations ≤ 2
    ∧ (∀ e1 e2, (cb0.allow_request now).1 = true →
        op 0 = .err e1 → is_connection_error e1 = true → rr = .ok () →
        op 1 = .err e2 → is_connection_error e2 = true →
          (with_reconnect cb0 now conn rr td op).result = .error e2
        ∧ (with_reconnect cb0 now conn rr td op).invocations = 2
        ∧ (with_reconnect cb0 now conn rr td op).failures_recorded = 2)
    ∧ (∀ e, (cb0.allow_request now).1 = true →
        op 0 = .err e → is_connection_error e = false →
          (with_reconnect cb0 now conn rr td op).result = .error e
        ∧ (with_reconnect cb0 now conn rr td op).failures_recorded = 0
        ∧ (with_reconnect cb0 now conn rr td op).reconnect_calls = 0
        ∧ (with_reconnect cb0 now conn rr td op).invocations = 1) := by
  refine ⟨?_, ?_, ?_⟩
  · unfold with_reconnect
    cases hg : (cb0.allow_request now).1 <;> simp only [hg, if_true, if_false, Bool.false_eq_true]
    · simp
    · cases h0 : op 0 <;> simp only []
      · simp
      · cases hc : is_connection_error _ <;> simp only [hc, if_true, if_false, Bool.false_eq_true]
        · simp
        · cases rr <;> simp only []
          · simp
          · cases h1 : op 1 <;> simp only []
            · simp
            · cases hc2 : is_connection_error _ <;> simp [hc2]
            · simp
      · cases conn <;> simp only [if_true, if_false, Bool.false_eq_true]
        · cases rr <;> simp only []
          · simp
          · cases h1 : op 1 <;> simp only []
            · simp
            · cases hc2 : is_connection_error _ <;> simp [hc2]
            · simp
        · simp
  · intro e1 e2 hg h0 hc1 hrr h1 hc2
    simp [with_reconnect, hg, h0, hc1, hrr, h1, hc2]
  · intro e hg h0 hc
    simp [with_reconnect, hg, h0, hc]

/-- Witness for c2_envelope_at_most_one_retry: a run whose first attempt is
Disconnected, whose reconnect succeeds and whose retry is ConnectionReset,
and a run whose first attempt is a BadRequest. -/
theorem c2_envelope_at_most_one_retry_witness :
    (with_reconnect (T := Nat) (CircuitBreaker.mk ⟨5, 2, 1000⟩ ⟨.Closed, none, 0, 0⟩ 0 0)
        0 true (.ok ()) "30s"
        (fun i => if i = 0 then .err (.Disconnected "d") else .err (.ConnectionReset "r"))).result
      = .error (.ConnectionReset "r")
    ∧ (with_reconnect (T := Nat) (CircuitBreaker.mk ⟨5, 2, 1000⟩ ⟨.Closed, none, 0, 0⟩ 0 0)
        0 true (.ok ()) "30s"
        (fun _ => .err (.BadRequest "b"))).failures_recorded = 0 := by
  have h1 := (c2_envelope_at_most_one_retry (T := Nat)
      (CircuitBreaker.mk ⟨5, 2, 1000⟩ ⟨.Closed, none, 0, 0⟩ 0 0) 0 true (.ok ()) "30s"
      (fun i => if i = 0 then .err (.Disconnected "d") else .err (.ConnectionReset "r"))).2.1
      (.Disconnected "d") (.ConnectionReset "r") rfl rfl rfl rfl rfl rfl
  have h2 := (c2_envelope_at_most_one_retry (T := Nat)
      (CircuitBreaker.mk ⟨5, 2, 1000⟩ ⟨.Closed, none, 0, 0⟩ 0 0) 0 true (.ok ()) "30s"
      (fun _ => .err (.BadRequest "b"))).2.2
      (.BadRequest "b") rfl rfl rfl
  exact ⟨h1.1, h2.2.1⟩

/-- C3: a first-attempt timeout with is_connected = true is returned as
OperationTimeout with no breaker failure and no reconnect; with
is_connected = false the envelope records a breaker failure and invokes
reconnect, and (when reconnect succeeds) retries once, surfacing a retry
timeout as OperationTimeout framed "on retry". -/
theorem c3_first_attempt_timeout {T : Type} (cb0 : CircuitBreaker)
    (now : Nat) (conn : Bool) (rr : Except AppError Unit) (td : String)
    (op : Nat → Outcome T) (hg : (cb0.allow_request now).1 = true)
    (h0 : op 0 = .timeout) :
    (conn = true →
        (with_reconnect cb0 now conn rr td op).result
          = .error (.OperationTimeout ("Operation timed out after " ++ td))
      ∧ (with_reconnect cb0 now conn rr td op).failures_recorded = 0
      ∧ (with_reconnect cb0 now conn rr td op).reconnect_calls = 0
      ∧ (with_reconnect cb0 now conn rr td op).invocations = 1)
    ∧ (conn = false →
        (with_reconnect cb0 now conn rr td op).reconnect_calls = 1
      ∧ 1 ≤ (with_reconnect cb0 now conn rr td op).failures_recorded)
    ∧ (conn = false → rr = .ok () → op 1 = .timeout →
        (with_reconnect cb0 now conn rr td op).result
          = .error (.OperationTimeout
              ("Operation timed out after " ++ td ++ " on retry"))
      ∧ (with_reconnect cb0 now conn rr td op).failures_recorded = 2
      ∧ (with_reconnect cb0 now conn rr td op).invocations = 2) := by
  refine ⟨?_, ?_, ?_⟩
  · intro hc
    subst hc
    simp [with_reconnect, hg, h0]
  · intro hc
    subst hc
    unfold with_reconnect
    simp only [hg, if_true, h0, Bool.false_eq_true, if_false]
    cases rr with
    | error re => simp
    | ok u =>
        cases h1 : op 1 with
        | ok v => simp
        | err e2 => cases hc2 : is_connection_error e2 <;> simp [hc2]
        | timeout => simp
  · intro hc hrr h1
    subst hc
    simp [with_reconnect, hg, h0, hrr, h1]

/-- Witness for c3_first_attempt_timeout: a connected slow first attempt,
and a disconnected one whose retry also times out. -/
theorem c3_first_attempt_timeout_witness :
    (with_reconnect (T := Nat) (CircuitBreaker.mk ⟨5, 2, 1000⟩ ⟨.Closed, none, 0, 0⟩ 0 0)
        0 true (.ok ()) "30s" (fun _ => .timeout)).result
      = .error (.OperationTimeout "Operation timed out after 30s")
    ∧ (with_reconnect (T := Nat) (CircuitBreaker.mk ⟨5, 2, 1000⟩ ⟨.Closed, none, 0, 0⟩ 0 0)
        0 false (.ok ()) "30s" (fun _ => .timeout)).result
      = .error (.OperationTimeout "Operation timed out after 30s on retry") := by
  have h1 := c3_first_attempt_timeout (T := Nat)
      (CircuitBreaker.mk ⟨5, 2, 1000⟩ ⟨.Closed, none, 0, 0⟩ 0 0) 0 true (.ok ()) "30s"
      (fun _ => .timeout) rfl rfl
  have h2 := c3_first_attempt_timeout (T := Nat)
      (CircuitBreaker.mk ⟨5, 2, 1000⟩ ⟨.Closed, none, 0, 0⟩ 0 0) 0 false (.ok ()) "30s"
      (fun _ => .timeout) rfl rfl
  exact ⟨(h1.1 rfl).1, (h2.2.2 rfl rfl rfl).1⟩

/-- Helper: when every connection attempt fails and the attempts counter
stands at k ≤ m, the backoff loop performs the remaining m - k attempts and
terminates with the exhaustion error, the counter at m + 1. -/
theorem reconnect_loop_all_fail (m : Nat) (hm : 0 < m) :
    ∀ fuel k tried st, st.reconnect_attempts = k → k ≤ m → m - k < fuel →
    reconnect_loop m (fun _ => false) fuel st tried
      = some (.error (.ConnectionFailed
              ("Failed to reconnect after " ++ toString m ++ " attempts")),
            { st with reconnect_attempts := m + 1 }, tried + (m - k)) := by
  intro fuel
  induction fuel with
  | zero => intro k tried st _ _ hfuel; omega
  | succ n ih =>
      intro k tried st hk hkm hfuel
      unfold reconnect_loop
      by_cases hstop : m < st.reconnect_attempts + 1
      · simp only [if_pos (And.intro hm hstop)]
        have h1 : st.reconnect_attempts + 1 = m + 1 := by omega
        have h2 : m - k = 0 := by omega
        rw [h1, h2]
        simp
      · simp only [if_neg (fun hand => hstop (And.right hand))]
        have hklt : k + 1 ≤ m := by omega
        have hrec := ih (k + 1) (tried + 1)
            { st with reconnect_attempts := st.reconnect_attempts + 1 }
            (by simp [hk]) hklt (by omega)
        simp only [] at hrec ⊢
        rw [hrec]
        have h3 : tried + 1 + (m - (k + 1)) = tried + (m - k) := by omega
        rw [h3]
        simp

/-- C4: with max_reconnect_attempts = m > 0 (and m small enough that the
u32 attempts counter cannot wrap), starting from a state whose attempts
counter is 0, a driving-task reconnect whose every connection attempt
fails performs exactly m attempts and returns ConnectionFailed with the
message "Failed to reconnect after m attempts", leaving the state
disconnected. -/
theorem c4_reconnect_exhaustion (m : Nat) (hm : 0 < m) (hw : m + 1 < 2 ^ 32)
    (fuel : Nat) (hfuel : m + 1 ≤ fuel) (st : ConnectionState)
    (hatt : st.reconnect_attempts = 0) :
    reconnect_drive m (fun _ => false) fuel st
      = some (.error (.ConnectionFailed
              ("Failed to reconnect after " ++ toString m ++ " attempts")),
            ConnectionState.mk false (m + 1) false, m) := by
  unfold reconnect_drive
  have hloop := reconnect_loop_all_fail m hm fuel 0 0
      (({ st with reconnecting := true } : ConnectionState).set_connected false)
      (by simp [ConnectionState.set_connected, hatt]) (by omega) (by omega)
  simp only [ConnectionState.set_connected] at hloop ⊢
  rw [hloop]
  simp

/-- Witness for c4_reconnect_exhaustion: scenario S2, max_attempts = 2. -/
theorem c4_reconnect_exhaustion_witness :
    reconnect_drive 2 (fun _ => false) 3 (ConnectionState.mk true 0 false)
      = some (.error (.ConnectionFailed "Failed to reconnect after 2 attempts"),
            ConnectionState.mk false 3 false, 2) := by
  have h := c4_reconnect_exhaustion 2 (by decide) (by norm_num) 3 (by decide)
      (ConnectionState.mk true 0 false) rfl
  rw [h]
  rfl


/-- IP address model: a 32-bit IPv4 value or a 128-bit IPv6 value, as a
natural number (Rust's IpAddr). -/
inductive IpAddr where
  | v4 (bits : Nat)
  | v6 (bits : Nat)
deriving DecidableEq

/-- Address width of the family: 32 for IPv4, 128 for IPv6. -/
def IpAddr.width : IpAddr → Nat
  | .v4 _ => 32
  | .v6 _ => 128

/-- The raw integer value of the address. -/
def IpAddr.bits : IpAddr → Nat
  | .v4 b => b
  | .v6 b => b

/-- Well-formedness: the value fits the family width (automatic for Rust's
fixed-width address types, a hypothesis in the Nat model). -/
def IpAddr.wf (ip : IpAddr) : Prop := ip.bits < 2 ^ ip.width

instance (ip : IpAddr) : Decidable ip.wf := by
  unfold IpAddr.wf
  infer_instance

/-- Whether two addresses are in the same address family. -/
def sameFamily : IpAddr → IpAddr → Bool
  | .v4 _, .v4 _ => true
  | .v6 _, .v6 _ => true
  | _, _ => false

/-- Split a character list at every occurrence of `sep` (the semantics of
Rust's `str::split` with a one-character pattern; always at least one
part). -/
def splitOnChar (sep : Char) : List Char → List (List Char)
  | [] => [[]]
  | c :: rest =>
      match splitOnChar sep rest with
      | [] => [[c]]
      | h :: t => if c == sep then [] :: h :: t else (c :: h) :: t

/-- Split at every occurrence of the two-character pattern "::" (the
semantics of Rust's `str::split("::")`). -/
def splitOnDoubleColon : List Char → List (List Char)
  | [] => [[]]
  | [c] => [[c]]
  | c1 :: c2 :: rest =>
      if c1 == ':' && c2 == ':' then
        match splitOnDoubleColon rest with
        | [] => [[]]
        | parts => [] :: parts
      else
        match splitOnDoubleColon (c2 :: rest) with
        | [] => [[c1]]
        | h :: t => (c1 :: h) :: t

/-- ASCII whitespace test used by trimming. -/
def isWsChar (c : Char) : Bool :=
  c == ' ' || c == '\t' || c == '\n' || c == '\r'

/-- Drop leading whitespace. -/
def dropLeadingWs : List Char → List Char
  | [] => []
  | c :: rest => if isWsChar c then dropLeadingWs rest else c :: rest

/-- Trim whitespace from both ends (the semantics of `str::trim` on the
ASCII inputs this code handles). -/
def trimChars (cs : List Char) : List Char :=
  dropLeadingWs ((dropLeadingWs cs.reverse).reverse)

/-- Decimal value of a digit list. -/
def decimalVal (cs : List Char) : Nat :=
  cs.foldl (fun a c => a * 10 + (c.toNat - 48)) 0

/-- Modelled from the spec: one textual IPv4 octet per Rust std's
`Ipv4Addr` parser (not part of src/): one to three decimal digits, no
leading zero, value at most 255. -/
def parseOctet (cs : List Char) : Option Nat :=
  if cs.isEmpty then none
  else if ! cs.all Char.isDigit then none
  else if 1 < cs.length && cs.headD ' ' == '0' then none
  else if 3 < cs.length then none
  else if decimalVal cs ≤ 255 then some (decimalVal cs) else none

/-- Modelled from the spec: Rust std's IPv4 address parsing (dotted quad,
not part of src/). -/
def parseIpv4 (cs : List Char) : Option Nat :=
  match splitOnChar '.' cs with
  | [a, b, c, d] =>
      match parseOctet a, parseOctet b, parseOctet c, parseOctet d with
      | some va, some vb, some vc, some vd =>
          some (((va * 256 + vb) * 256 + vc) * 256 + vd)
      | _, _, _, _ => none
  | _ => none

/-- Hexadecimal digit test for IPv6 groups. -/
def isHexDigitChar (c : Char) : Bool :=
  c.isDigit || (Char.ofNat 97 ≤ c && c ≤ Char.ofNat 102)
    || (Char.ofNat 65 ≤ c && c ≤ Char.ofNat 70)

/-- Value of a hexadecimal digit. -/
def hexDigitVal (c : Char) : Nat :=
  if c.isDigit then c.toNat - 48
  else if Char.ofNat 97 ≤ c && c ≤ Char.ofNat 102 then c.toNat - 87
  else c.toNat - 55

/-- Hexadecimal value of a digit list. -/
def hexVal (cs : List Char) : Nat :=
  cs.foldl (fun a c => a * 16 + hexDigitVal c) 0

/-- Modelled from the spec: one 16-bit IPv6 group, at most four hex digits
(the final bound check is implied by the digit count and makes
well-formedness immediate). -/
def parseHexGroup (cs : List Char) : Option Nat :=
  if cs.isEmpty || 4 < cs.length || ! cs.all isHexDigitChar then none
  else if hexVal cs < 65536 then some (hexVal cs) else none

/-- Parse every group of a list, failing if any group fails. -/
def mapOptHex : List (List Char) → Option (List Nat)
  | [] => some []
  | s :: rest =>
      match parseHexGroup s with
      | none => none
      | some g =>
          match mapOptHex rest with
          | none => none
          | some gs => some (g :: gs)

/-- Fold eight 16-bit groups into the 128-bit address value. -/
def combineGroups (gs : List Nat) : Nat :=
  gs.foldl (fun a g => a * 65536 + g) 0

/-- Modelled from the spec: Rust std's IPv6 address parsing (not part of
src/): eight colon-separated groups, or a shorter form with one elided
all-zero run written as a double colon (the embedded-IPv4 tail form is
omitted; no statement below depends on it). -/
def parseIpv6 (cs : List Char) : Option Nat :=
  match splitOnDoubleColon cs with
  | [whole] =>
      if (splitOnChar ':' whole).length = 8 then
        match mapOptHex (splitOnChar ':' whole) with
        | some gs => some (combineGroups gs)
        | none => none
      else none
  | [pre, post] =>
      if (if pre.isEmpty then [] else splitOnChar ':' pre).length
          + (if post.isEmpty then [] else splitOnChar ':' post).length ≤ 7 then
        match mapOptHex (if pre.isEmpty then [] else splitOnChar ':' pre),
              mapOptHex (if post.isEmpty then [] else splitOnChar ':' post) with
        | some g1, some g2 =>
            some (combineGroups
              (g1 ++ List.replicate (8 - (g1.length + g2.length)) 0 ++ g2))
        | _, _ => none
      else none
  | _ => none

/-- Modelled from the spec: `str::parse::<IpAddr>` — IPv4 first, then
IPv6. -/
def parseIp (cs : List Char) : Option IpAddr :=
  match parseIpv4 cs with
  | some b => some (.v4 b)
  | none =>
      match parseIpv6 cs with
      | some b => some (.v6 b)
      | none => none

/-- Modelled from the spec: `str::parse::<u8>` (optional leading plus
sign, decimal digits, overflow above 255 rejected). -/
def parseU8 (cs : List Char) : Option Nat :=
  let t := match cs with
    | c :: rest => if c == '+' then rest else cs
    | [] => cs
  if t.isEmpty || ! t.all Char.isDigit then none
  else if decimalVal t ≤ 255 then some (decimalVal t) else none

/-- CidrRange (src/middleware/rate_limit.rs): parsed network and prefix
length. -/
structure CidrRange where
  network : IpAddr
  prefix_len : Nat
deriving DecidableEq

/-- CidrRange::parse (src/middleware/rate_limit.rs lines 103-138): trim,
split on the slash; anything other than exactly two parts is retried as a
bare IP with the family-maximal prefix; otherwise the prefix must parse as
u8 and not exceed the family maximum. -/
def CidrRange.parse (cidr : String) : Option CidrRange :=
  let parts := splitOnChar '/' (trimChars cidr.data)
  if parts.length ≠ 2 then
    match parts.head? with
    | none => none
    | some p0 =>
        match parseIp p0 with
        | some ip =>
            some { network := ip
                   prefix_len := match ip with | .v4 _ => 32 | .v6 _ => 128 }
        | none => none
  else
    match parts.head? with
    | none => none
    | some p0 =>
        match parseIp p0 with
        | none => none
        | some ip =>
            match parts.get? 1 with
            | none => none
            | some p1 =>
                match parseU8 p1 with
                | none => none
                | some plen =>
                    if (match ip with | .v4 _ => 32 | .v6 _ => 128) < plen then
                      none
                    else some { network := ip, prefix_len := plen }

/-- CidrRange::contains (src/middleware/rate_limit.rs lines 141-166):
mask comparison within the address family; families never match each
other.  The shifts model the u32/u128 shifts with an explicit reduction
modulo the word size. -/
def CidrRange.contains (r : CidrRange) (ip : IpAddr) : Bool :=
  match r.network, ip with
  | .v4 net, .v4 addr =>
      let mask : Nat :=
        if r.prefix_len = 0 then 0
        else ((2 ^ 32 - 1) <<< (32 - r.prefix_len)) % 2 ^ 32
      net &&& mask == addr &&& mask
  | .v6 net, .v6 addr =>
      let mask : Nat :=
        if r.prefix_len = 0 then 0
        else ((2 ^ 128 - 1) <<< (128 - r.prefix_len)) % 2 ^ 128
      net &&& mask == addr &&& mask
  | _, _ => false

/-- TrustedProxyConfig (src/middleware/rate_limit.rs). -/
structure TrustedProxyConfig where
  ranges : List CidrRange
deriving DecidableEq

/-- TrustedProxyConfig::new: parse the configured CIDR strings, skipping
invalid ones. -/
def TrustedProxyConfig.new (cidrs : List String) : TrustedProxyConfig :=
  ⟨cidrs.filterMap CidrRange.parse⟩

/-- TrustedProxyConfig::is_enabled. -/
def TrustedProxyConfig.is_enabled (c : TrustedProxyConfig) : Bool :=
  ! c.ranges.isEmpty

/-- TrustedProxyConfig::is_trusted (src/middleware/rate_limit.rs lines
215-232): empty configuration trusts everything; otherwise the string
must parse as an IP contained in some configured range. -/
def TrustedProxyConfig.is_trusted (c : TrustedProxyConfig) (ip_str : String) :
    Bool :=
  if c.ranges.isEmpty then true
  else
    match parseIp ip_str.data with
    | none => false
    | some ip => c.ranges.any (fun r => r.contains ip)

/-- Helper: masking a w-bit value with the top bits selected by shifting
the all-ones word left by k keeps exactly the bits from position k up. -/
theorem land_mask_eq_shift (w k x : Nat) (hx : x < 2 ^ w) :
    x &&& (((2 ^ w - 1) <<< k) % 2 ^ w) = (x >>> k) <<< k := by
  apply Nat.eq_of_testBit_eq
  intro i
  simp only [Nat.testBit_and, Nat.testBit_mod_two_pow, Nat.testBit_shiftLeft,
    Nat.testBit_shiftRight, Nat.testBit_two_pow_sub_one]
  rcases Nat.lt_or_ge i w with hiw | hiw
  · rcases Nat.lt_or_ge i k with hik | hik
    · have hnk : ¬ i ≥ k := Nat.not_le.mpr hik
      simp [hnk]
    · have h2 : i - k < w := by omega
      have h3 : k + (i - k) = i := by omega
      simp [hik, hiw, h2, h3]
  · have hx2 : x < 2 ^ i :=
      lt_of_lt_of_le hx (Nat.pow_le_pow_right (by norm_num) hiw)
    have hbit : x.testBit i = false := Nat.testBit_lt_two_pow hx2
    rcases Nat.lt_or_ge i k with hik | hik
    · have hnk : ¬ i ≥ k := Nat.not_le.mpr hik
      simp [hnk, hbit]
    · have h3 : k + (i - k) = i := by omega
      simp [hik, h3, hbit]

/-- Helper: two w-bit values agree under the top-bits mask iff their
right-shifted (leading-bit) parts agree. -/
theorem land_mask_eq_iff (w k x y : Nat) (hx : x < 2 ^ w) (hy : y < 2 ^ w) :
    (x &&& (((2 ^ w - 1) <<< k) % 2 ^ w)
        = y &&& (((2 ^ w - 1) <<< k) % 2 ^ w))
      ↔ x >>> k = y >>> k := by
  rw [land_mask_eq_shift w k x hx, land_mask_eq_shift w k y hy]
  constructor
  · intro h
    have h2 := h
    rw [Nat.shiftLeft_eq, Nat.shiftLeft_eq] at h2
    exact Nat.eq_of_mul_eq_mul_right (Nat.pos_pow_of_pos k (by norm_num)) h2
  · intro h
    rw [h]

/-- Helper: a w-bit value shifted right by the full width is zero. -/
theorem shiftRight_full (w x : Nat) (hx : x < 2 ^ w) : x >>> w = 0 := by
  rw [Nat.shiftRight_eq_div_pow]
  exact Nat.div_eq_of_lt hx

/-- Helper: CidrRange::contains, for a well-formed range and address,
holds iff the address is in the same family and its leading prefix_len
bits agree with the network's (prefix 0 matching the whole family). -/
theorem contains_iff_leading_bits (r : CidrRange) (hwf : r.network.wf)
    (ip : IpAddr) (hip : ip.wf) :
    r.contains ip = true ↔
      (sameFamily r.network ip = true
        ∧ ip.bits >>> (r.network.width - r.prefix_len)
            = r.network.bits >>> (r.network.width - r.prefix_len)) := by
  rcases hr : r.network with _ | _ <;> rcases hipc : ip with _ | _ <;>
    rw [hr] at hwf <;> rw [hipc] at hip <;>
    simp only [CidrRange.contains, IpAddr.wf, IpAddr.width, IpAddr.bits,
      sameFamily, hr] at hwf hip ⊢
  case v4.v4 net addr =>
    by_cases hz : r.prefix_len = 0
    · simp only [hz, if_pos rfl, Nat.sub_zero]
      simp [Nat.and_zero, shiftRight_full 32 addr hip,
        shiftRight_full 32 net hwf]
    · simp only [if_neg hz, beq_iff_eq, true_and]
      rw [land_mask_eq_iff 32 (32 - r.prefix_len) net addr hwf hip]
      exact eq_comm
  case v4.v6 net addr => simp
  case v6.v4 net addr => simp
  case v6.v6 net addr =>
    by_cases hz : r.prefix_len = 0
    · simp only [hz, if_pos rfl, Nat.sub_zero]
      simp [Nat.and_zero, shiftRight_full 128 addr hip,
        shiftRight_full 128 net hwf]
    · simp only [if_neg hz, beq_iff_eq, true_and]
      rw [land_mask_eq_iff 128 (128 - r.prefix_len) net addr hwf hip]
      exact eq_comm

/-- Helper: a parsed octet is at most 255. -/
theorem parseOctet_le {cs : List Char} {v : Nat} (h : parseOctet cs = some v) :
    v ≤ 255 := by
  unfold parseOctet at h
  repeat split at h
  all_goals simp_all
  all_goals omega

/-- Helper: a parsed IPv4 address fits 32 bits. -/
theorem parseIpv4_lt {cs : List Char} {b : Nat} (h : parseIpv4 cs = some b) :
    b < 2 ^ 32 := by
  unfold parseIpv4 at h
  split at h
  · split at h
    · rename_i va vb vc vd ha hb hc hd
      injection h with h
      have h1 := parseOctet_le ha
      have h2 := parseOctet_le hb
      have h3 := parseOctet_le hc
      have h4 := parseOctet_le hd
      have h32 : (2 : Nat) ^ 32 = 4294967296 := by norm_num
      rw [h32]
      omega
    · exact absurd h (by simp)
  · exact absurd h (by simp)

/-- Helper: a parsed hex group is below 2^16. -/
theorem parseHexGroup_lt {cs : List Char} {v : Nat}
    (h : parseHexGroup cs = some v) : v < 65536 := by
  unfold parseHexGroup at h
  repeat split at h
  all_goals simp_all
  all_goals omega

/-- Helper: every group produced by mapOptHex is below 2^16. -/
theorem mapOptHex_mem_lt {l : List (List Char)} :
    ∀ {gs : List Nat}, mapOptHex l = some gs → ∀ g ∈ gs, g < 65536 := by
  induction l with
  | nil =>
      intro gs h g hg
      simp [mapOptHex] at h
      subst h
      simp at hg
  | cons s rest ih =>
      intro gs h g hg
      unfold mapOptHex at h
      cases hp : parseHexGroup s with
      | none => rw [hp] at h; simp at h
      | some g0 =>
          rw [hp] at h
          cases hm : mapOptHex rest with
          | none => rw [hm] at h; simp at h
          | some gs0 =>
              rw [hm] at h
              simp at h
              subst h
              rcases List.mem_cons.mp hg with hg | hg
              · subst hg; exact parseHexGroup_lt hp
              · exact ih hm g hg

/-- Helper: mapOptHex preserves length. -/
theorem mapOptHex_length {l : List (List Char)} :
    ∀ {gs : List Nat}, mapOptHex l = some gs → gs.length = l.length := by
  induction l with
  | nil =>
      intro gs h
      simp [mapOptHex] at h
      subst h
      rfl
  | cons s rest ih =>
      intro gs h
      unfold mapOptHex at h
      cases hp : parseHexGroup s with
      | none => rw [hp] at h; simp at h
      | some g0 =>
          rw [hp] at h
          cases hm : mapOptHex rest with
          | none => rw [hm] at h; simp at h
          | some gs0 =>
              rw [hm] at h
              simp at h
              subst h
              simp [ih hm]

/-- Helper: the group fold stays below the width of the accumulated
groups. -/
theorem combine_fold_lt (gs : List Nat) :
    ∀ (acc k : Nat), (∀ g ∈ gs, g < 65536) → acc < 2 ^ k →
    gs.foldl (fun a g => a * 65536 + g) acc < 2 ^ (k + 16 * gs.length) := by
  induction gs with
  | nil =>
      intro acc k _ hacc
      simpa using hacc
  | cons g rest ih =>
      intro acc k h hacc
      have hg : g < 65536 := h g (List.mem_cons_self g rest)
      have hrest : ∀ x ∈ rest, x < 65536 :=
        fun x hx => h x (List.mem_cons_of_mem g hx)
      have hstep : acc * 65536 + g < 2 ^ (k + 16) := by
        have h1 : acc + 1 ≤ 2 ^ k := hacc
        have h2 : (acc + 1) * 65536 ≤ 2 ^ k * 65536 :=
          Nat.mul_le_mul_right _ h1
        have h3 : 2 ^ k * 65536 = 2 ^ (k + 16) := by
          rw [pow_add]; norm_num
        omega
      have hrec := ih (acc * 65536 + g) (k + 16) hrest hstep
      have harr : k + 16 + 16 * rest.length = k + 16 * (rest.length + 1) := by
        ring
      rw [harr] at hrec
      simpa using hrec

/-- Helper: eight 16-bit groups combine into a 128-bit value. -/
theorem combineGroups_lt_128 {gs : List Nat} (h : ∀ g ∈ gs, g < 65536)
    (hl : gs.length = 8) : combineGroups gs < 2 ^ 128 := by
  have hc := combine_fold_lt gs 0 0 h (by norm_num)
  rw [hl] at hc
  simpa [combineGroups] using hc

/-- Helper: a parsed IPv6 address fits 128 bits. -/
theorem parseIpv6_lt {cs : List Char} {b : Nat} (h : parseIpv6 cs = some b) :
    b < 2 ^ 128 := by
  unfold parseIpv6 at h
  split at h
  · rename_i whole heq
    generalize hQ : splitOnChar ':' whole = parts at h
    split at h
    · rename_i hlen
      cases hm : mapOptHex parts with
      | none => rw [hm] at h; simp at h
      | some gs =>
          rw [hm] at h
          simp at h
          subst h
          exact combineGroups_lt_128 (mapOptHex_mem_lt hm)
            (by rw [mapOptHex_length hm]; exact hlen)
    · exact absurd h (by simp)
  · rename_i pre post heq
    generalize hP : (if pre.isEmpty then [] else splitOnChar ':' pre) = preParts at h
    generalize hQ : (if post.isEmpty then [] else splitOnChar ':' post) = postParts at h
    split at h
    · rename_i hlen
      cases hm1 : mapOptHex preParts with
      | none => rw [hm1] at h; simp at h
      | some g1 =>
          rw [hm1] at h
          cases hm2 : mapOptHex postParts with
          | none => rw [hm2] at h; simp at h
          | some g2 =>
              rw [hm2] at h
              simp at h
              subst h
              have hl1 := mapOptHex_length hm1
              have hl2 := mapOptHex_length hm2
              apply combineGroups_lt_128
              · intro g hg
                rcases List.mem_append.mp hg with hg | hg
                · exact mapOptHex_mem_lt hm1 g hg
                · rcases List.mem_append.mp hg with hg | hg
                  · rw [List.eq_of_mem_replicate hg]; norm_num
                  · exact mapOptHex_mem_lt hm2 g hg
              · simp only [List.length_append, List.length_replicate]
                omega
    · exact absurd h (by simp)
  · exact absurd h (by simp)

/-- Helper: parseIp returns only well-formed addresses. -/
theorem parseIp_wf {cs : List Char} {ip : IpAddr} (h : parseIp cs = some ip) :
    ip.wf := by
  unfold parseIp at h
  cases h4 : parseIpv4 cs with
  | some b =>
      rw [h4] at h
      injection h with h
      subst h
      exact parseIpv4_lt h4
  | none =>
      rw [h4] at h
      cases h6 : parseIpv6 cs with
      | some b =>
          rw [h6] at h
          injection h with h
          subst h
          exact parseIpv6_lt h6
      | none => rw [h6] at h; exact absurd h (by simp)

/-- Helper: a successfully parsed CIDR range has a well-formed network
address and a prefix length within the family width. -/
theorem cidr_parse_wf {s : String} {r : CidrRange}
    (h : CidrRange.parse s = some r) :
    r.network.wf ∧ r.prefix_len ≤ r.network.width := by
  simp only [CidrRange.parse] at h
  generalize hp : splitOnChar '/' (trimChars s.data) = parts at h
  split at h
  · cases hh : parts.head? with
    | none => rw [hh] at h; simp at h
    | some p0 =>
        rw [hh] at h
        dsimp only at h
        cases hip : parseIp p0 with
        | none => rw [hip] at h; simp at h
        | some ip =>
            rw [hip] at h
            simp at h
            subst h
            refine ⟨parseIp_wf hip, ?_⟩
            cases ip <;> simp [IpAddr.width]
  · cases hh : parts.head? with
    | none => rw [hh] at h; simp at h
    | some p0 =>
        rw [hh] at h
        dsimp only at h
        cases hip : parseIp p0 with
        | none => rw [hip] at h; simp at h
        | some ip =>
            rw [hip] at h
            dsimp only at h
            cases h1 : parts.get? 1 with
            | none => rw [h1] at h; simp at h
            | some p1 =>
                rw [h1] at h
                dsimp only at h
                cases h8 : parseU8 p1 with
                | none => rw [h8] at h; simp at h
                | some plen =>
                    rw [h8] at h
                    dsimp only at h
                    split at h
                    · simp at h
                    · rename_i hle
                      simp at h
                      subst h
                      refine ⟨parseIp_wf hip, ?_⟩
                      cases ip <;> simp [IpAddr.width] at hle ⊢ <;> omega

/-- C5: for any successfully parsed range and any address, contains holds
iff the address is in the range's family and its leading prefix_len bits
equal the network's (prefix 0 matching the whole family); a bare IP (no
slash) parses with the family-maximal prefix; and a prefix beyond the
family maximum, such as "10.0.0.0/33", fails to parse. -/
theorem c5_cidr_contains_and_parse :
    (∀ (s : String) (r : CidrRange), CidrRange.parse s = some r →
      ∀ ip : IpAddr, ip.wf →
        (r.contains ip = true ↔
          (sameFamily r.network ip = true
            ∧ ip.bits >>> (r.network.width - r.prefix_len)
                = r.network.bits >>> (r.network.width - r.prefix_len))))
    ∧ (∀ (s : String) (ip : IpAddr),
        splitOnChar '/' (trimChars s.data) = [trimChars s.data] →
        parseIp (trimChars s.data) = some ip →
        CidrRange.parse s = some ⟨ip, ip.width⟩)
    ∧ CidrRange.parse "10.0.0.0/33" = none := by
  refine ⟨?_, ?_, ?_⟩
  · intro s r hr ip hip
    exact contains_iff_leading_bits r (cidr_parse_wf hr).1 ip hip
  · intro s ip hsplit hip
    simp only [CidrRange.parse]
    rw [hsplit]
    simp [hip]
    cases ip <;> simp [IpAddr.width]
  · decide

/-- Witness for c5_cidr_contains_and_parse: 10.0.0.0/8 contains
10.255.255.255, and the bare IP 192.168.1.1 parses as a /32 host range. -/
theorem c5_cidr_contains_and_parse_witness :
    (CidrRange.mk (.v4 167772160) 8).contains (.v4 184549375) = true
    ∧ CidrRange.parse "192.168.1.1" = some ⟨.v4 3232235777, 32⟩ := by
  have h := c5_cidr_contains_and_parse
  exact ⟨(h.1 "10.0.0.0/8" ⟨.v4 167772160, 8⟩ (by decide) (.v4 184549375)
            (by decide)).mpr (by decide),
         h.2.1 "192.168.1.1" (.v4 3232235777) (by decide) (by decide)⟩

/-- C10: an input whose trimmed form splits on the slash into more than
two parts is not rejected: when the first segment parses as an IP, parse
returns that IP as a host range with the family-maximal prefix length,
silently discarding the remaining segments. -/
theorem c10_extra_segments (s : String) (p0 : List Char)
    (rest : List (List Char)) (ip : IpAddr)
    (hsplit : splitOnChar '/' (trimChars s.data) = p0 :: rest)
    (hlen : 2 < (p0 :: rest).length) (hip : parseIp p0 = some ip) :
    CidrRange.parse s = some ⟨ip, ip.width⟩ := by
  simp only [CidrRange.parse]
  rw [hsplit]
  have hne : (p0 :: rest).length ≠ 2 := by omega
  rw [if_pos hne]
  simp [hip]
  cases ip <;> simp [IpAddr.width]

/-- Witness for c10_extra_segments: "10.0.0.0/8/24" parses as the host
range 10.0.0.0/32. -/
theorem c10_extra_segments_witness :
    CidrRange.parse "10.0.0.0/8/24" = some ⟨.v4 167772160, 32⟩ :=
  c10_extra_segments "10.0.0.0/8/24" "10.0.0.0".data
    ["8".data, "24".data] (.v4 167772160) (by decide) (by decide) (by decide)

/-- HTTP request model: header list in arrival order (names lowercased as
by the http crate; a value of none stands for bytes that are not valid
visible-ASCII/UTF-8, on which `to_str` fails), the URI path, and the raw
query string. -/
structure HttpRequest where
  headers : List (String × Option String)
  path : String
  query : Option String

/-- HeaderMap::get: first header with the given name. -/
def headerGet (req : HttpRequest) (name : String) : Option (Option String) :=
  (req.headers.find? (fun h => h.1 == name)).map (fun h => h.2)

/-- ExtractedIp (src/middleware/ip.rs). -/
inductive ExtractedIp where
  | fromXff (ip : String)
  | fromRealIp (ip : String)
  | notFound
deriving DecidableEq

/-- extract_ip_from_headers (src/middleware/ip.rs lines 136-154): the
first comma-separated element of X-Forwarded-For when present and
decodable, else X-Real-IP, else nothing; both trimmed. -/
def extract_ip_from_headers (req : HttpRequest) : ExtractedIp :=
  match headerGet req "x-forwarded-for" with
  | some (some v) =>
      .fromXff (String.mk (trimChars ((splitOnChar ',' v.data).headD [])))
  | _ =>
      match headerGet req "x-real-ip" with
      | some (some v) => .fromRealIp (String.mk (trimChars v.data))
      | _ => .notFound

/-- extract_client_ip_with_validation (src/middleware/ip.rs lines
193-223): returns the header-derived IP or the "unknown" sentinel; the
trusted-proxy configuration is consulted only for debug logging and never
changes the result. -/
def extract_client_ip_with_validation (req : HttpRequest)
    (trusted : TrustedProxyConfig) : String :=
  match extract_ip_from_headers req with
  | .fromXff ip => ip
  | .fromRealIp ip => ip
  | .notFound => "unknown"

/-- extract_client_ip (src/middleware/ip.rs lines 259-264). -/
def extract_client_ip (req : HttpRequest) : String :=
  match extract_ip_from_headers req with
  | .fromXff ip => ip
  | .fromRealIp ip => ip
  | .notFound => "unknown"

/-- Modelled from the spec (section 4.6 steps 1-3): the identity
extraction algorithm as the spec words it — first comma-separated element
of Forwarded-For trimmed, else Real-IP trimmed, else the sentinel. -/
def spec_extract_identity (req : HttpRequest) : String :=
  match headerGet req "x-forwarded-for" with
  | some (some v) =>
      String.mk (trimChars ((splitOnChar ',' v.data).headD []))
  | _ =>
      match headerGet req "x-real-ip" with
      | some (some v) => String.mk (trimChars v.data)
      | _ => "unknown"

/-- C6 counterexample: with trusted-proxy validation enabled and a peer
outside every configured range, the extractor still returns the
X-Forwarded-For value rather than the "unknown" sentinel — the peer is
never consulted (the function has no peer input at all), so forwarded
headers are not ignored for untrusted peers. -/
theorem c6_untrusted_peer_counterexample :
    (TrustedProxyConfig.new ["10.0.0.0/8"]).is_enabled = true
    ∧ (TrustedProxyConfig.new ["10.0.0.0/8"]).is_trusted "198.51.100.7" = false
    ∧ extract_client_ip_with_validation
        (HttpRequest.mk [("x-forwarded-for", some "203.0.113.9")] "/messages" none)
        (TrustedProxyConfig.new ["10.0.0.0/8"]) = "203.0.113.9"
    ∧ ("203.0.113.9" : String) ≠ "unknown" := by
  refine ⟨by decide, by decide, by decide, by decide⟩

/-- C6 (amended): the extractor returns the trimmed first comma-separated
element of X-Forwarded-For when present and UTF-8, else the trimmed
X-Real-IP when present and UTF-8, else "unknown" — for every trusted-proxy
configuration alike; the configured ranges never affect the result (the
validation layer only logs), so headers from untrusted peers are not
ignored. -/
theorem c6_extractor_ignores_trust (req : HttpRequest)
    (cfg cfg2 : TrustedProxyConfig) :
    extract_client_ip_with_validation req cfg = spec_extract_identity req
    ∧ extract_client_ip_with_validation req cfg
        = extract_client_ip_with_validation req cfg2 := by
  constructor
  · unfold extract_client_ip_with_validation extract_ip_from_headers
      spec_extract_identity
    rcases headerGet req "x-forwarded-for" with _ | hv
    · rcases headerGet req "x-real-ip" with _ | hr
      · rfl
      · rcases hr with _ | v <;> rfl
    · rcases hv with _ | v
      · rcases headerGet req "x-real-ip" with _ | hr
        · rfl
        · rcases hr with _ | v <;> rfl
      · rfl
  · rfl

/-- Modelled from the spec (section 4.5 and the glossary; the governor
crate is an external collaborator): a keyed GCRA cell stores the
next-allowed instant (theoretical arrival time) for its key; a check
admits iff the instant is within the burst tolerance of now, and on
admission consumes capacity by advancing the cell one emission interval;
a denial leaves the cell unchanged and reports the wait until the
earliest conforming instant.  Time in nanoseconds. -/
structure Gcra where
  emission_interval : Nat
  tolerance : Nat
deriving DecidableEq

/-- Outcome of one keyed check: admission, the new cell, and the wait in
nanoseconds when denied. -/
structure GcraDecision where
  allowed : Bool
  cell : Option Nat
  wait_ns : Nat
deriving DecidableEq

/-- One check-and-update of a GCRA cell (RateLimiter::check_key on one
key; modelled from the spec). -/
def Gcra.check (g : Gcra) (now : Nat) (cell : Option Nat) : GcraDecision :=
  let tat := cell.getD now
  if now + g.tolerance < tat then
    { allowed := false, cell := cell, wait_ns := tat - g.tolerance - now }
  else
    { allowed := true, cell := some (max tat now + g.emission_interval),
      wait_ns := 0 }

/-- Duration::as_secs on a nanosecond count: whole seconds, rounded
down. -/
def duration_as_secs (ns : Nat) : Nat := ns / 1000000000

/-- Response of the rate-limit layer: the request was forwarded to the
inner service, or rejected with the given status and headers. -/
inductive RlResponse where
  | forwarded
  | rejected (status : Nat) (retryAfter : String) (limitHeader : String)
      (remainingHeader : String)
deriving DecidableEq

/-- RateLimitService::call (src/middleware/rate_limit.rs lines 359-408):
extract the caller key, check its cell, forward on admission, otherwise
build the 429 with Retry-After = max(floor(wait seconds), 1),
X-RateLimit-Limit = the configured rps, X-RateLimit-Remaining = 0.
Returns the response and the updated keyed store. -/
def rate_limit_call (g : Gcra) (limit : Nat) (trusted : TrustedProxyConfig)
    (now : Nat) (req : HttpRequest) (cells : String → Option Nat) :
    RlResponse × (String → Option Nat) :=
  let client_ip := extract_client_ip_with_validation req trusted
  let d := g.check now (cells client_ip)
  let cells2 := fun k => if k == client_ip then d.cell else cells k
  if d.allowed then
    (.forwarded, cells2)
  else
    (.rejected 429 (toString (max (duration_as_secs d.wait_ns) 1))
      (toString limit) "0", cells2)

/-- C8 counterexample: a rejection whose remaining wait is 2.5 s carries
Retry-After "2" (floor, clamped below at 1), not the claimed ceiling "3". -/
theorem c8_retry_after_counterexample :
    (rate_limit_call ⟨1000000000, 0⟩ 100 (TrustedProxyConfig.new []) 0
        (HttpRequest.mk [("x-forwarded-for", some "203.0.113.9")] "/messages" none)
        (fun _ => some 2500000000)).1
      = .rejected 429 "2" "100" "0"
    ∧ (2500000000 + 1000000000 - 1) / 1000000000 = 3
    ∧ ("2" : String) ≠ "3" := by
  refine ⟨by decide, by decide, by decide⟩

/-- C8 (amended): every request rejected by the keyed request limiter gets
status 429 with Retry-After = max(floor(remaining-wait-seconds), 1) — the
wait rounded DOWN to whole seconds and clamped below at 1, not rounded
up — X-RateLimit-Limit = the configured rps, and X-RateLimit-Remaining =
0. -/
theorem c8_rejection_headers (g : Gcra) (limit : Nat)
    (trusted : TrustedProxyConfig) (now : Nat) (req : HttpRequest)
    (cells : String → Option Nat)
    (hd : (g.check now (cells (extract_client_ip_with_validation req trusted))).allowed
            = false) :
    (rate_limit_call g limit trusted now req cells).1
      = .rejected 429
          (toString (max (duration_as_secs
            (g.check now (cells (extract_client_ip_with_validation req trusted))).wait_ns) 1))
          (toString limit) "0" := by
  unfold rate_limit_call
  simp only [hd, Bool.false_eq_true, if_false]

/-- Witness for c8_rejection_headers at the 2.5 s wait instance. -/
theorem c8_rejection_headers_witness :
    (rate_limit_call ⟨1000000000, 0⟩ 100 (TrustedProxyConfig.new []) 0
        (HttpRequest.mk [("x-forwarded-for", some "203.0.113.9")] "/messages" none)
        (fun _ => some 2500000000)).1
      = .rejected 429 "2" "100" "0" := by
  have h := c8_rejection_headers ⟨1000000000, 0⟩ 100 (TrustedProxyConfig.new []) 0
      (HttpRequest.mk [("x-forwarded-for", some "203.0.113.9")] "/messages" none)
      (fun _ => some 2500000000) (by decide)
  rw [h]
  rfl

/-- Split at the first occurrence of `sep` (Rust's `str::split_once`). -/
def splitOnceChar (sep : Char) : List Char → Option (List Char × List Char)
  | [] => none
  | c :: rest =>
      if c == sep then some ([], rest)
      else
        match splitOnceChar sep rest with
        | none => none
        | some (a, b) => some (c :: a, b)

/-- ExtractedApiKey (src/middleware/auth.rs). -/
structure ExtractedApiKey where
  key : String
  from_query : Bool
deriving DecidableEq

/-- The query-parameter scan of extract_api_key: first pair whose key is
api_key. -/
def findApiKeyInQuery : List (List Char) → Option ExtractedApiKey
  | [] => none
  | pair :: rest =>
      match splitOnceChar '=' pair with
      | some (k, v) =>
          if k == "api_key".data then some ⟨String.mk v, true⟩
          else findApiKeyInQuery rest
      | none => findApiKeyInQuery rest

/-- extract_api_key (src/middleware/auth.rs lines 294-327): the X-API-Key
header when present and decodable, else the api_key query parameter. -/
def extract_api_key (req : HttpRequest) : Option ExtractedApiKey :=
  match headerGet req "x-api-key" with
  | some (some v) => some ⟨v, false⟩
  | _ =>
      match req.query with
      | some q => findApiKeyInQuery (splitOnChar '&' q.data)
      | none => none

/-- constant_time_eq (src/middleware/auth.rs lines 333-340): the subtle
crate's ct_eq over the UTF-8 bytes — functionally, equality of the two
strings (the timing profile is not representable here). -/
def constant_time_eq (a b : String) : Bool := a == b

/-- Response of the auth layer. -/
inductive AuthResponse where
  | forwarded
  | unauthorized (status : Nat) (message : String)
  | tooManyRequests (status : Nat) (retryAfter : String)
deriving DecidableEq

/-- Result of one pass through the auth layer: the response, the
auth-failure limiter's keyed store afterwards, and how many credential
comparisons ran. -/
structure AuthOutcome where
  response : AuthResponse
  cells : String → Option Nat
  comparisons : Nat

/-- ApiKeyAuthService::call (src/middleware/auth.rs lines 189-271): pass
through when auth is disabled or the path is bypassed; otherwise check
the caller's auth-failure cell (an exhausted quota yields the 429 before
any comparison), then compare the extracted credential, consuming one
more check from the caller's cell on mismatch or absence. -/
def api_key_auth_call (expected_key : Option String)
    (bypass_paths : List String) (g : Gcra) (now : Nat) (req : HttpRequest)
    (cells : String → Option Nat) : AuthOutcome :=
  match expected_key with
  | none => { response := .forwarded, cells := cells, comparisons := 0 }
  | some expected =>
      if bypass_paths.any (fun p => p == req.path) then
        { response := .forwarded, cells := cells, comparisons := 0 }
      else
        let client_ip := extract_client_ip req
        let d := g.check now (cells client_ip)
        if d.allowed = false then
          { response := .tooManyRequests 429
              (toString (max (duration_as_secs d.wait_ns) 1)),
            cells := fun k => if k == client_ip then d.cell else cells k,
            comparisons := 0 }
        else
          match extract_api_key req with
          | some extracted =>
              if constant_time_eq extracted.key expected then
                { response := .forwarded,
                  cells := fun k => if k == client_ip then d.cell else cells k,
                  comparisons := 1 }
              else
                { response := .unauthorized 401 "Invalid API key",
                  cells := fun k =>
                    if k == client_ip then (g.check now d.cell).cell
                    else cells k,
                  comparisons := 1 }
          | none =>
              { response := .unauthorized 401 "API key required",
                cells := fun k =>
                  if k == client_ip then (g.check now d.cell).cell
                  else cells k,
                comparisons := 0 }

/-- Modelled from the spec: the default auth-failure quota (10 per minute,
burst 5; src/middleware/auth.rs lines 83-86) as a GCRA — emission interval
6 s and a tolerance under which five back-to-back requests from an idle
cell are admitted and the sixth is not. -/
def authFailureGcra : Gcra := ⟨6000000000, 24000000000⟩

/-- The auth-failure store after n back-to-back requests carrying the
valid credential, all at instant 0, starting from an idle store. -/
def c7cells : Nat → (String → Option Nat)
  | 0 => fun _ => none
  | n + 1 =>
      (api_key_auth_call (some "secret") ["/health", "/ready"] authFailureGcra 0
        (HttpRequest.mk [("x-api-key", some "secret")] "/messages" none)
        (c7cells n)).cells

/-- C7 counterexample: a request with a valid credential does consume
quota from the caller's auth-failure bucket — the gate check itself
consumes.  The first valid request is forwarded but advances the cell,
and the sixth consecutive valid request is rejected 429 with no
comparison run, where the claim says valid requests consume nothing. -/
theorem c7_valid_credential_consumes_counterexample :
    (api_key_auth_call (some "secret") ["/health", "/ready"] authFailureGcra 0
        (HttpRequest.mk [("x-api-key", some "secret")] "/messages" none)
        (fun _ => none)).response = .forwarded
    ∧ (c7cells 1) "unknown" = some 6000000000
    ∧ (api_key_auth_call (some "secret") ["/health", "/ready"] authFailureGcra 0
        (HttpRequest.mk [("x-api-key", some "secret")] "/messages" none)
        (c7cells 5)).response = .tooManyRequests 429 "6"
    ∧ (api_key_auth_call (some "secret") ["/health", "/ready"] authFailureGcra 0
        (HttpRequest.mk [("x-api-key", some "secret")] "/messages" none)
        (c7cells 5)).comparisons = 0 := by
  refine ⟨by decide, by decide, by decide, by decide⟩

/-- C7 (amended): with auth enabled and the path not bypassed, the
caller's auth-failure cell is checked before any credential comparison —
an exhausted quota yields 429 with a Retry-After and zero comparisons,
leaving the cell unchanged — but the gate check itself consumes one token
whenever capacity allows: a valid-credential request consumes one token,
and a mismatching or missing credential consumes one further check on top
of the gate's. -/
theorem c7_auth_gate_and_accounting (expected : String)
    (bypass_paths : List String) (g : Gcra) (now : Nat) (req : HttpRequest)
    (cells : String → Option Nat)
    (hbp : bypass_paths.any (fun p => p == req.path) = false) :
    ((g.check now (cells (extract_client_ip req))).allowed = false →
        (api_key_auth_call (some expected) bypass_paths g now req cells).response
          = .tooManyRequests 429 (toString (max (duration_as_secs
              (g.check now (cells (extract_client_ip req))).wait_ns) 1))
      ∧ (api_key_auth_call (some expected) bypass_paths g now req cells).comparisons = 0
      ∧ (api_key_auth_call (some expected) bypass_paths g now req cells).cells
          (extract_client_ip req) = cells (extract_client_ip req))
    ∧ ((g.check now (cells (extract_client_ip req))).allowed = true →
        ∀ ek, extract_api_key req = some ek →
        constant_time_eq ek.key expected = true →
        (api_key_auth_call (some expected) bypass_paths g now req cells).response
          = .forwarded
      ∧ (api_key_auth_call (some expected) bypass_paths g now req cells).comparisons = 1
      ∧ (api_key_auth_call (some expected) bypass_paths g now req cells).cells
          (extract_client_ip req)
          = (g.check now (cells (extract_client_ip req))).cell)
    ∧ ((g.check now (cells (extract_client_ip req))).allowed = true →
        ∀ ek, extract_api_key req = some ek →
        constant_time_eq ek.key expected = false →
        (api_key_auth_call (some expected) bypass_paths g now req cells).response
          = .unauthorized 401 "Invalid API key"
      ∧ (api_key_auth_call (some expected) bypass_paths g now req cells).comparisons = 1
      ∧ (api_key_auth_call (some expected) bypass_paths g now req cells).cells
          (extract_client_ip req)
          = (g.check now (g.check now (cells (extract_client_ip req))).cell).cell)
    ∧ ((g.check now (cells (extract_client_ip req))).allowed = true →
        extract_api_key req = none →
        (api_key_auth_call (some expected) bypass_paths g now req cells).response
          = .unauthorized 401 "API key required"
      ∧ (api_key_auth_call (some expected) bypass_paths g now req cells).comparisons = 0
      ∧ (api_key_auth_call (some expected) bypass_paths g now req cells).cells
          (extract_client_ip req)
          = (g.check now (g.check now (cells (extract_client_ip req))).cell).cell) := by
  refine ⟨?_, ?_, ?_, ?_⟩
  · intro hd
    unfold api_key_auth_call
    simp only [hbp, Bool.false_eq_true, if_false, hd, if_true]
    refine ⟨trivial, trivial, ?_⟩
    simp only [beq_self_eq_true, if_true]
    unfold Gcra.check at hd ⊢
    dsimp only at hd ⊢
    by_cases hc : now + g.tolerance < (cells (extract_client_ip req)).getD now
    · rw [if_pos hc]
    · rw [if_neg hc] at hd
      simp at hd
  · intro hd ek hek hct
    unfold api_key_auth_call
    simp only [hbp, Bool.false_eq_true, if_false, hd, hek, hct, if_true]
    simp
  · intro hd ek hek hct
    unfold api_key_auth_call
    simp only [hbp, Bool.false_eq_true, if_false, hd, hek, hct, if_true]
    simp
  · intro hd hek
    unfold api_key_auth_call
    simp only [hbp, Bool.false_eq_true, if_false, hd, hek, if_true]
    simp

/-- Witness for c7_auth_gate_and_accounting: an exhausted caller is
rejected before comparison, and a fresh caller with the valid key is
forwarded while its cell advances. -/
theorem c7_auth_gate_and_accounting_witness :
    (api_key_auth_call (some "secret") ["/health", "/ready"] authFailureGcra 0
        (HttpRequest.mk [("x-api-key", some "secret")] "/messages" none)
        (fun _ => some 30000000000)).response = .tooManyRequests 429 "6"
    ∧ (api_key_auth_call (some "secret") ["/health", "/ready"] authFailureGcra 0
        (HttpRequest.mk [("x-api-key", some "secret")] "/messages" none)
        (fun _ => none)).cells "unknown" = some 6000000000 := by
  have h1 := (c7_auth_gate_and_accounting "secret" ["/health", "/ready"]
      authFailureGcra 0
      (HttpRequest.mk [("x-api-key", some "secret")] "/messages" none)
      (fun _ => some 30000000000) (by decide)).1 (by decide)
  have h2 := ((c7_auth_gate_and_accounting "secret" ["/health", "/ready"]
      authFailureGcra 0
      (HttpRequest.mk [("x-api-key", some "secret")] "/messages" none)
      (fun _ => none) (by decide)).2.1 (by decide)
      ⟨"secret", false⟩ (by decide) (by decide)).2.2
  refine ⟨?_, ?_⟩
  · rw [h1.1]
    rfl
  · have hip : extract_client_ip
        (HttpRequest.mk [("x-api-key", some "secret")] "/messages" none)
          = "unknown" := by decide
    rw [← hip, h2]
    rfl
